import Mathlib

/-!
Verification development for the ProductProAI image-analysis pipeline
(`backend/services/image_recognition/`): a shallow embedding in Lean 4 of
the color extractor, shape detector, texture analyzer, model generator and
the orchestrating image analyzer, together with theorems settling the
specification claims about them.

Conventions of the embedding:
* Python floats are modelled as rationals (`ℚ`); all thresholds in the
  source are decimal literals, which `ℚ` represents exactly.
* Python dicts that act as records are modelled as Lean structures whose
  fields keep the dict keys' names.
* Calls into third-party libraries (sklearn `KMeans`, image decoding) are
  modelled by passing their outcome in as an explicit argument; the
  conditions sklearn guarantees for a successful `KMeans.fit` are captured
  by the predicate `ValidClustering` below.
* Python exceptions are modelled with `Except String`.
-/

/-! ### Numeric helpers shared by the embedded components -/

/-- Model of `numpy` `astype(int)`, which truncates toward zero. -/
def npTrunc (q : ℚ) : ℤ :=
  if 0 ≤ q then ⌊q⌋ else ⌈q⌉

/-- Lowercase hexadecimal digit, as produced by Python `%x` formatting. -/
def hexDigitChar (n : ℕ) : Char :=
  if n < 10 then Char.ofNat (48 + n) else Char.ofNat (87 + n)

/-- Python `'%02x' % n` for a byte value `0 ≤ n < 256` (the cluster-center
channels always lie in `[0, 255]`). -/
def toHexByte (n : ℕ) : String :=
  String.mk [hexDigitChar (n / 16 % 16), hexDigitChar (n % 16)]

/-- Python `'#%02x%02x%02x' % (r, g, b)` from `color_extractor.py` line 72. -/
def hexColorOfRGB (c : ℤ × ℤ × ℤ) : String :=
  "#" ++ toHexByte c.1.toNat ++ toHexByte c.2.1.toNat ++ toHexByte c.2.2.toNat

/-- Maximum of a list of naturals (0 on the empty list). -/
def listMaxNat (l : List ℕ) : ℕ := l.foldr max 0

/-- Model of `np.bincount`: occurrence counts of `0, 1, …, max l` in `l`.
(`np.bincount` of an empty array is empty; the empty case never reaches the
source because `KMeans.fit` raises on an empty sample, so every claim below
assumes a nonempty label list.) -/
def bincount (l : List ℕ) : List ℕ :=
  (List.range (listMaxNat l + 1)).map (fun c => l.count c)

/-! ### ColorExtractor (`color_extractor.py`)

`extract_colors` resizes the image, drops transparent pixels, runs
`KMeans(n_clusters=self.n_colors, n_init=10).fit(pixels)` — note: without a
`random_state` — and then post-processes the clustering outcome.  The
clustering outcome (`kmeans.cluster_centers_`, `kmeans.labels_`) is the
input of the embedded post-processing code. -/

/-- The data `extract_colors` reads back from the fitted `KMeans` object:
`cluster_centers_` (one RGB point per cluster, fractional) and `labels_`
(one cluster index per sampled pixel). -/
structure ClusterOutcome where
  centers : List (ℚ × ℚ × ℚ)
  labels : List ℕ
deriving DecidableEq

/-- Line 64: `colors = kmeans.cluster_centers_.astype(int)`. -/
def kmeansColors (o : ClusterOutcome) : List (ℤ × ℤ × ℤ) :=
  o.centers.map (fun c => (npTrunc c.1, npTrunc c.2.1, npTrunc c.2.2))

/-- Lines 67–69: `color_counts = np.bincount(labels)`;
`color_percentages = color_counts / len(labels) * 100`. -/
def rawPercentages (labels : List ℕ) : List ℚ :=
  (bincount labels).map (fun c : ℕ => (c : ℚ) / (labels.length : ℚ) * 100)

/-- The unsorted hex list of line 72, in cluster order. -/
def rawHexColors (o : ClusterOutcome) : List String :=
  (kmeansColors o).map hexColorOfRGB

/-- Stable insertion of an index into an index list sorted by weakly
decreasing key. -/
def insertDescBy (key : ℕ → ℚ) (i : ℕ) : List ℕ → List ℕ
  | [] => [i]
  | j :: js => if key i ≤ key j then j :: insertDescBy key i js else i :: j :: js

/-- Model of `np.argsort(ps)[::-1]` (line 82): the indices `0, …, len ps - 1`
arranged so that `ps` read along them is weakly decreasing.  (`np.argsort`
uses an unstable quicksort, so the arrangement of tied indices is
unspecified; this model fixes one arrangement, and the theorems below never
depend on the tie order.) -/
def argsortDesc (ps : List ℚ) : List ℕ :=
  (List.range ps.length).foldr (fun i acc => insertDescBy (fun n => ps.getD n 0) i acc) []

/-- The pair `(hex_colors_unsorted, rgb, percentages)` built on lines 75–79
as the dict `color_info`. -/
structure ColorInfo where
  hex : List String
  rgb : List (ℤ × ℤ × ℤ)
  percentages : List ℚ
deriving DecidableEq

/-- Success path of `ColorExtractor.extract_colors` (lines 64–86), given the
clustering outcome.  Only the hex list is reordered by descending
percentage (lines 82–83); `color_info` keeps cluster order.  (`getD` models
Python list indexing; the indices produced on line 82 are always in range
for `hex_colors` whenever every label is a valid cluster index.) -/
def extract_colors (o : ClusterOutcome) : List String × ColorInfo :=
  let colors := kmeansColors o
  let color_percentages := rawPercentages o.labels
  let hex_colors := rawHexColors o
  let color_info : ColorInfo := ⟨hex_colors, colors, color_percentages⟩
  let sorted_indices := argsortDesc color_percentages
  let sorted_hex_colors := sorted_indices.map (fun i => hex_colors.getD i "")
  (sorted_hex_colors, color_info)

/-- Return record of `ColorExtractor.get_color_palette` (lines 155–159). -/
structure ColorPalette where
  hex_colors : List String
  rgb_values : List (ℤ × ℤ × ℤ)
  percentages : List ℚ
deriving DecidableEq

/-- Success path of `ColorExtractor.get_color_palette` (lines 140–159): it
returns the sorted hex list together with the `rgb`/`percentages` entries
of `color_info` unchanged. -/
def get_color_palette (o : ClusterOutcome) : ColorPalette :=
  let r := extract_colors o
  ⟨r.1, r.2.rgb, r.2.percentages⟩

/-! #### What a successful `KMeans.fit` guarantees

`extract_colors` trusts sklearn for the clustering itself.  A fitted
`KMeans` with `k` clusters on a nonempty pixel list satisfies: every pixel
gets exactly one label `< k`, no cluster is empty, each center is the mean
of its assigned pixels, and each pixel is assigned to a nearest center.
The predicate is decidable so concrete outcomes can be checked. -/

/-- Squared Euclidean distance in RGB space. -/
def sqDist (p q : ℚ × ℚ × ℚ) : ℚ :=
  (p.1 - q.1) ^ 2 + (p.2.1 - q.2.1) ^ 2 + (p.2.2 - q.2.2) ^ 2

/-- The pixels assigned to cluster `c`. -/
def assignedPixels (pixels : List (ℚ × ℚ × ℚ)) (labels : List ℕ) (c : ℕ) :
    List (ℚ × ℚ × ℚ) :=
  ((pixels.zip labels).filter (fun pl => pl.2 == c)).map (fun pl => pl.1)

/-- Componentwise mean of a nonempty pixel list (junk value 0 on `[]`). -/
def meanPixel (l : List (ℚ × ℚ × ℚ)) : ℚ × ℚ × ℚ :=
  ((l.map (fun p => p.1)).sum / (l.length : ℚ),
   (l.map (fun p => p.2.1)).sum / (l.length : ℚ),
   (l.map (fun p => p.2.2)).sum / (l.length : ℚ))

/-- Conditions satisfied by any outcome a successful
`KMeans(n_clusters=k).fit(pixels)` can return. -/
def ValidClustering (pixels : List (ℚ × ℚ × ℚ)) (k : ℕ) (o : ClusterOutcome) : Prop :=
  o.centers.length = k ∧
  o.labels.length = pixels.length ∧
  (∀ l ∈ o.labels, l < k) ∧
  (∀ c, c < k → assignedPixels pixels o.labels c ≠ [] ∧
    o.centers.getD c 0 = meanPixel (assignedPixels pixels o.labels c)) ∧
  (∀ i, i < pixels.length → ∀ c, c < k →
    sqDist (pixels.getD i 0) (o.centers.getD (o.labels.getD i 0) 0) ≤
      sqDist (pixels.getD i 0) (o.centers.getD c 0))

instance (pixels : List (ℚ × ℚ × ℚ)) (k : ℕ) (o : ClusterOutcome) :
    Decidable (ValidClustering pixels k o) := by
  unfold ValidClustering
  infer_instance

/-! ### ShapeDetector (`shape_detector.py`)

The numeric image processing (grayscale, blur, Canny, `find_contours`,
Hough transforms) is third-party; the embedded code covers the
classification and aggregation logic that `shape_detector.py` itself
implements, taking the processed data as input. -/

/-- Minimum of a nonempty list of rationals (junk value 0 on `[]`;
`np.min` raises on an empty array, and every call site below has a
nonempty contour). -/
def listMinQ : List ℚ → ℚ
  | [] => 0
  | x :: xs => xs.foldl min x

/-- Maximum of a nonempty list of rationals (junk value 0 on `[]`). -/
def listMaxQ : List ℚ → ℚ
  | [] => 0
  | x :: xs => xs.foldl max x

/-- Bounding-box aspect ratio of a contour, as computed on lines 203–207 of
`_identify_shape` (and again on lines 134–140 of `_analyze_contours`):
`width / height` of the axis-aligned bounding box, and `0` when the box has
zero height. -/
def contourAspectRatio (contour : List (ℚ × ℚ)) : ℚ :=
  let width := listMaxQ (contour.map Prod.fst) - listMinQ (contour.map Prod.fst)
  let height := listMaxQ (contour.map Prod.snd) - listMinQ (contour.map Prod.snd)
  if height > 0 then width / height else 0

/-- Embeds `ShapeDetector._identify_shape` (lines 181–220): classify an
approximated contour polygon from its vertex count, compactness and
(for quadrilaterals) bounding-box aspect ratio. -/
def identify_shape (contour : List (ℚ × ℚ)) (compactness : ℚ) : String :=
  if compactness > 0.8 then "Circle"
  else if contour.length = 3 then "Triangle"
  else if contour.length = 4 then
    if 0.9 < contourAspectRatio contour ∧ contourAspectRatio contour < 1.1 then "Square"
    else "Rectangle"
  else if contour.length = 5 then "Pentagon"
  else if contour.length = 6 then "Hexagon"
  else if contour.length > 6 ∧ contour.length < 15 then "Polygon"
  else "Organic"

/-- One entry of the `shapes` list built by `_analyze_contours`
(lines 143–154). -/
structure ShapeRecord where
  type : String
  vertices : ℕ
  area : ℚ
  perimeter : ℚ
  compactness : ℚ
  aspect_ratio : ℚ
  pos_x : ℚ
  pos_y : ℚ
deriving DecidableEq

/-- Return value of `_analyze_contours` (lines 175–179). -/
structure ShapeInfo where
  shapes : List ShapeRecord
  complexity : String
  distribution : String
deriving DecidableEq

/-- Return value of `_detect_lines`, reduced to the fields that
`_determine_dominant_shapes` and `detect_shapes` read. -/
structure LineInfo where
  has_straight_lines : Bool
  line_count : ℕ
  dominant_orientation : String
deriving DecidableEq

/-- Return value of `_detect_circles`, reduced to the fields that
`_determine_dominant_shapes` and `detect_shapes` read. -/
structure CircleInfo where
  has_circles : Bool
  circle_count : ℕ
deriving DecidableEq

/-- The `shape_counts` dict built on lines 344–351: occurrence counts keyed
by shape type, in first-occurrence order (Python dicts preserve insertion
order). -/
def addShapeCount (acc : List (String × ℕ)) (t : String) : List (String × ℕ) :=
  if acc.any (fun p => p.1 = t) then
    acc.map (fun p => if p.1 = t then (p.1, p.2 + 1) else p)
  else acc ++ [(t, 1)]

/-- Fold of `addShapeCount` over the shape-type list, as the Python loop
does. -/
def countShapeTypes (ts : List String) : List (String × ℕ) :=
  ts.foldl addShapeCount []

/-- Stable insertion into a list sorted by weakly decreasing count. -/
def insertByCountDesc (x : String × ℕ) : List (String × ℕ) → List (String × ℕ)
  | [] => [x]
  | y :: ys => if x.2 ≤ y.2 then y :: insertByCountDesc x ys else x :: y :: ys

/-- Model of `sorted(shape_counts.items(), key=lambda x: x[1], reverse=True)`
(line 356): Python's `sorted` is stable, so ties keep insertion order. -/
def sortByCountDesc (l : List (String × ℕ)) : List (String × ℕ) :=
  l.foldl (fun acc x => insertByCountDesc x acc) []

/-- Embeds `ShapeDetector._determine_dominant_shapes` (lines 329–376). -/
def determine_dominant_shapes (shape_info : ShapeInfo) (line_info : LineInfo)
    (circle_info : CircleInfo) : List String :=
  let shape_types := shape_info.shapes.map (fun s => s.type)
  let shape_counts := countShapeTypes shape_types
  let sorted_shapes := sortByCountDesc shape_counts
  let d1 := ((sorted_shapes.take 3).filter (fun p => 1 < p.2)).map (fun p => p.1)
  let d2 := if line_info.has_straight_lines && d1.isEmpty then d1 ++ ["Geometric"] else d1
  let d3 := if circle_info.has_circles && !(d2.contains "Circle") then d2 ++ ["Circular"] else d2
  if d3.isEmpty then
    d3 ++ [if shape_info.complexity = "High" then "Complex" else "Organic"]
  else d3

/-- Return record of `detect_shapes` (lines 71–79 on success, 86–94 on
failure). -/
structure ShapeAnalysis where
  dominant_shapes : List String
  shape_count : ℕ
  has_straight_lines : Bool
  has_curves : Bool
  shape_complexity : String
  shape_distribution : String
  shape_details : List ShapeRecord
deriving DecidableEq

/-- Embeds `ShapeDetector.detect_shapes` (lines 26–94).  The image decoding and
processing stages (lines 39–65) either produce the three intermediate
records or raise; that outcome is the argument.  On success the result is
assembled as on lines 71–79; any exception is converted to the sentinel
record of lines 86–94. -/
def detect_shapes (stage : Except String (ShapeInfo × LineInfo × CircleInfo)) :
    ShapeAnalysis :=
  match stage with
  | .ok (shape_info, line_info, circle_info) =>
    { dominant_shapes := determine_dominant_shapes shape_info line_info circle_info
      shape_count := shape_info.shapes.length
      has_straight_lines := line_info.has_straight_lines
      has_curves := circle_info.has_circles
      shape_complexity := shape_info.complexity
      shape_distribution := shape_info.distribution
      shape_details := shape_info.shapes.take 5 }
  | .error _ =>
    { dominant_shapes := ["Unknown"]
      shape_count := 0
      has_straight_lines := false
      has_curves := false
      shape_complexity := "Low"
      shape_distribution := "Unknown"
      shape_details := [] }

/-! ### TextureAnalyzer (`texture_analyzer.py`) -/

/-- Embeds `TextureAnalyzer._determine_texture_type` (lines 119–147). -/
def determine_texture_type (roughness uniformity contrast directionality : ℚ) : String :=
  if roughness < 10 then
    if uniformity > 0.5 then "Smooth" else "Matte"
  else if roughness < 30 then
    if directionality > 0.5 then "Striated" else "Textured"
  else
    if contrast > 0.3 then "Rough" else "Coarse"

/-- Embeds `TextureAnalyzer._determine_pattern_type` (lines 149–184), as a function
of the derived statistics (LBP-histogram entropy, HOG mean, HOG standard
deviation). -/
def determine_pattern_type (lbp_entropy hog_mean hog_std : ℚ) : String :=
  if lbp_entropy < 3 then "Solid"
  else if lbp_entropy < 4 then
    if hog_std < 0.1 then "Uniform" else "Gradient"
  else if lbp_entropy < 5 then
    if hog_mean > 0.2 then "Geometric" else "Organic"
  else
    if hog_std > 0.2 then "Complex" else "Random"

/-- Return record of `analyze_texture` (lines 91–102 on success, 109–117 on
failure), reduced to the scalar fields (the `features` entry additionally
carries the raw LBP histogram and the first 10 HOG features). -/
structure TextureAnalysis where
  texture_type : String
  roughness : ℚ
  uniformity : ℚ
  contrast : ℚ
  directionality : ℚ
  pattern_type : String
deriving DecidableEq

/-! ### ModelGenerator (`model_generator.py`) -/

/-- The `dimensions` dict of `_generate_dimensions`. -/
structure Dimensions where
  width : ℚ
  height : ℚ
  depth : ℚ
deriving DecidableEq

/-- One entry of the `colors` list built by `_process_colors`. -/
structure NamedColor where
  hex : String
  name : String
deriving DecidableEq

/-- One entry of the `details` list built by `_generate_details`. -/
structure Detail where
  type : String
  description : String
  intensity : ℚ
deriving DecidableEq

/-- The model-parameter dict returned by `generate_model_parameters`. -/
structure ModelParams where
  type : String
  dimensions : Dimensions
  colors : List NamedColor
  materials : List String
  details : List Detail
deriving DecidableEq

/-- Embeds `ModelGenerator._determine_model_type` (lines 112–135), as a function of
the `dominant_shapes` list it reads from the shape-analysis dict. -/
def determine_model_type (dominant_shapes : List String) : String :=
  if dominant_shapes.contains "Circle" || dominant_shapes.contains "Circular" then "cylindrical"
  else if dominant_shapes.contains "Rectangle" || dominant_shapes.contains "Square" then "box"
  else if dominant_shapes.contains "Triangle" then "pyramid"
  else if dominant_shapes.contains "Polygon" then "polyhedron"
  else if dominant_shapes.contains "Organic" then "organic"
  else "generic"

/-- Python `max(shapes, key=lambda x: x.get('area', 0))` starting from a
first element: keeps the earlier element unless a later one is strictly
larger, so ties resolve to the first maximal record. -/
def pythonMaxByArea (s : ShapeRecord) : List ShapeRecord → ShapeRecord
  | [] => s
  | t :: ts => if s.area < t.area then pythonMaxByArea t ts else pythonMaxByArea s ts

/-- Embeds `ModelGenerator._generate_dimensions` (lines 137–178). -/
def generate_dimensions (shape_analysis : ShapeAnalysis) : Dimensions :=
  match shape_analysis.shape_details with
  | [] => ⟨1, 1, 1⟩
  | s :: rest =>
    let largest_shape := pythonMaxByArea s rest
    let aspct := largest_shape.aspect_ratio
    let w : ℚ := if aspct > 1 then min 2 aspct else 1
    let h : ℚ := if aspct > 1 then 1 else min 2 (if aspct > 0 then 1 / aspct else 1)
    let d : ℚ :=
      if largest_shape.type = "Circle" ∨ largest_shape.type = "Square" then w else w * 0.5
    ⟨w, h, d⟩

/-- The fixed hex-to-name reference table of `_process_colors`
(lines 196–206), in source order. -/
def colorNamesTable : List (String × String) :=
  [("#FF0000", "Red"), ("#00FF00", "Green"), ("#0000FF", "Blue"),
   ("#FFFF00", "Yellow"), ("#FF00FF", "Magenta"), ("#00FFFF", "Cyan"),
   ("#000000", "Black"), ("#FFFFFF", "White"), ("#808080", "Gray")]

/-- Value of a hexadecimal digit character (0 for any other character; the
pipeline only feeds well-formed `#rrggbb` strings to the parser). -/
def hexCharVal (c : Char) : ℕ :=
  if 48 ≤ c.toNat ∧ c.toNat ≤ 57 then c.toNat - 48
  else if 97 ≤ c.toNat ∧ c.toNat ≤ 102 then c.toNat - 87
  else if 65 ≤ c.toNat ∧ c.toNat ≤ 70 then c.toNat - 55
  else 0

/-- Python `int(s[i:i+2], 16)` on a two-character slice of the digit list. -/
def hexPairVal (cs : List Char) (i : ℕ) : ℕ :=
  16 * hexCharVal (cs.getD i '0') + hexCharVal (cs.getD (i + 1) '0')

/-- Model of `hex_color.lstrip('#')` followed by the three `int(…, 16)` slices of
lines 235–236 / 243–244: the `(r, g, b)` triple of a `#rrggbb` string. -/
def rgbOfHexString (s : String) : ℕ × ℕ × ℕ :=
  let cs := (s.dropWhile (fun c => c = '#')).toList
  (hexPairVal cs 0, hexPairVal cs 2, hexPairVal cs 4)

/-- Squared RGB distance between two hex strings.  The source compares
`((Δr)² + (Δg)² + (Δb)²) ** 0.5` values (line 247); the square root is
strictly monotone on nonnegative reals, so comparing squared distances
selects exactly the same table entry. -/
def hexSqDist (a b : String) : ℕ :=
  let p := rgbOfHexString a
  let q := rgbOfHexString b
  (p.1 - q.1 : ℤ).natAbs ^ 2 + (p.2.1 - q.2.1 : ℤ).natAbs ^ 2 + (p.2.2 - q.2.2 : ℤ).natAbs ^ 2

/-- The `for hex_code, name in color_map.items()` loop of lines 242–251:
running argmin over the table, replacing only on strict improvement, so
ties favor the earlier table entry. -/
def closestNameLoop (hex_color : String) : List (String × String) → ℕ → String → String
  | [], _, best => best
  | (code, name) :: rest, bestDist, best =>
    if hexSqDist hex_color code < bestDist then closestNameLoop hex_color rest (hexSqDist hex_color code) name
    else closestNameLoop hex_color rest bestDist best

/-- Embeds `ModelGenerator._find_closest_color_name` (lines 220–253).  The initial
`min_distance = float('inf')` is modelled by a bound strictly larger than
any possible squared RGB distance, and the exact-key lookup of line 231
precedes the distance loop as in the source. -/
def find_closest_color_name (hex_color : String) (color_map : List (String × String)) : String :=
  match color_map.find? (fun p => p.1 = hex_color) with
  | some p => p.2
  | none => closestNameLoop hex_color color_map 1000000 "Custom"

/-- Embeds `ModelGenerator._process_colors` (lines 180–218): name the top 3 hex
colors of the palette. -/
def process_colors (color_analysis : ColorPalette) : List NamedColor :=
  (color_analysis.hex_colors.take 3).map
    (fun hex_color => ⟨hex_color, find_closest_color_name hex_color colorNamesTable⟩)

/-- Embeds `ModelGenerator._suggest_materials` (lines 255–290). -/
def suggest_materials (texture_analysis : TextureAnalysis) : List String :=
  let base :=
    if texture_analysis.texture_type = "Smooth" then ["Glass", "Polished Metal", "Plastic"]
    else if texture_analysis.texture_type = "Matte" then ["Matte Plastic", "Rubber", "Fabric"]
    else if texture_analysis.texture_type = "Rough" then ["Stone", "Concrete", "Wood"]
    else if texture_analysis.texture_type = "Textured" then ["Textured Plastic", "Leather", "Canvas"]
    else ["Plastic"]
  let withPattern :=
    if texture_analysis.pattern_type = "Geometric" then base ++ ["3D Printed Polymer"]
    else if texture_analysis.pattern_type = "Organic" then base ++ ["Natural Wood"]
    else base
  withPattern.take 3

/-- Embeds `ModelGenerator._generate_details` (lines 292–350). -/
def generate_details (shape_analysis : ShapeAnalysis) (texture_analysis : TextureAnalysis) :
    List Detail :=
  let d1 : List Detail :=
    if shape_analysis.shape_complexity = "High" then
      [⟨"surface_detail", "Complex surface patterns", 0.8⟩]
    else if shape_analysis.shape_complexity = "Medium" then
      [⟨"surface_detail", "Moderate surface patterns", 0.5⟩]
    else []
  let d2 : List Detail :=
    if texture_analysis.texture_type = "Rough" then
      [⟨"roughness", "Rough surface texture", 0.7⟩]
    else if texture_analysis.texture_type = "Textured" then
      [⟨"bump_map", "Textured surface", 0.6⟩]
    else []
  let d3 : List Detail :=
    if texture_analysis.pattern_type = "Geometric" then
      [⟨"geometric_pattern", "Geometric surface pattern", 0.5⟩]
    else if texture_analysis.pattern_type = "Organic" then
      [⟨"organic_pattern", "Organic surface pattern", 0.6⟩]
    else []
  d1 ++ d2 ++ d3

/-- The three analysis records `generate_model_parameters` destructures.  In
Python they are dynamically typed dicts; malformed input (the only way the
`try` body of lines 85–101 can raise, since `extract_features` catches its
own errors) is modelled by an `Except.error` argument instead of an
inputs record. -/
structure ModelGenInputs where
  shape_analysis : ShapeAnalysis
  color_analysis : ColorPalette
  texture_analysis : TextureAnalysis

/-- The fallback dict of the `except` branch (lines 104–110). -/
def basicCubeDefault : ModelParams :=
  { type := "basic_cube"
    dimensions := ⟨1, 1, 1⟩
    colors := [⟨"#CCCCCC", "Gray"⟩]
    materials := ["Plastic"]
    details := [] }

/-- Embeds `ModelGenerator.generate_model_parameters` (lines 72–110): build the
five parameter entries from the analysis records; if the body raises, return
the conservative fallback dict. -/
def generate_model_parameters (inputs : Except String ModelGenInputs) : ModelParams :=
  match inputs with
  | .ok i =>
    { type := determine_model_type i.shape_analysis.dominant_shapes
      dimensions := generate_dimensions i.shape_analysis
      colors := process_colors i.color_analysis
      materials := suggest_materials i.texture_analysis
      details := generate_details i.shape_analysis i.texture_analysis }
  | .error _ => basicCubeDefault

/-! ### ImageAnalyzer (`ProductProAI/backend/services/image_recognition/image_analyzer.py`) -/

/-- Model of `os.path.basename` for forward-slash paths. -/
def pathBasename (p : String) : String :=
  (p.splitOn "/").getLastD p

/-- First component of `os.path.splitext`: drop the part after the last dot
(the hidden-file special case of `os.path.splitext` is immaterial here). -/
def splitextRoot (p : String) : String :=
  let parts := p.splitOn "."
  if parts.length ≤ 1 then p else String.intercalate "." parts.dropLast

/-- Model of `os.path.join` for the simple relative-path case used by the source. -/
def joinPath (a b : String) : String := a ++ "/" ++ b

/-- The successful-analysis dict assembled on lines 98–106 of
`analyze_image`. -/
structure AnalysisResults where
  image_path : String
  color_analysis : ColorPalette
  texture_analysis : TextureAnalysis
  shape_analysis : ShapeAnalysis
  model_parameters : ModelParams
  output_directory : String
  visualization_files : List String
deriving DecidableEq

/-- The failure dict returned by the `except` branch of `analyze_image`
(lines 116–120). -/
structure FailureRecord where
  error : String
  image_path : String
  status : String
deriving DecidableEq

/-- Result type: `analyze_image` returns one of two dict shapes. -/
inductive AnalyzeOutcome where
  | ok (r : AnalysisResults)
  | failed (r : FailureRecord)
deriving DecidableEq

/-- Outcomes of the side-effecting calls `analyze_image` makes, in source
order.  Each call either returns a value or raises; components whose own
bodies swallow exceptions simply never produce an `Except.error` here. -/
structure AnalyzerEnv where
  file_exists : Bool
  makedirs : Except String Unit
  color_stage : Except String ColorPalette
  texture_stage : Except String TextureAnalysis
  texture_viz : Except String Unit
  shape_stage : Except String ShapeAnalysis
  shape_viz : Except String Unit
  model_stage : Except String ModelParams
  model_file_stage : Except String (Option String)
  viz_files : Except String (List String)
  save_results : Except String (Option String)

/-- The `try` body of `ImageAnalyzer.analyze_image` (lines 49–112): check
the file exists (raising `FileNotFoundError` otherwise), create the output
directory, run the four stages and the visualization/persistence steps in
source order, and assemble the results dict. -/
def analyze_image_try (env : AnalyzerEnv) (output_dir image_path : String)
    (generate_visualizations : Bool) : Except String AnalysisResults := do
  if !env.file_exists then throw ("Image file not found: " ++ image_path)
  let base_name := pathBasename image_path
  let file_name := splitextRoot base_name
  let image_output_dir := joinPath output_dir file_name
  let _ ← env.makedirs
  let color_palette ← env.color_stage
  let texture_analysis ← env.texture_stage
  if generate_visualizations then
    let _ ← env.texture_viz
  let shape_analysis ← env.shape_stage
  if generate_visualizations then
    let _ ← env.shape_viz
  let model_params ← env.model_stage
  let _ ← env.model_file_stage
  let viz ← if generate_visualizations then env.viz_files else pure []
  let analysis_results : AnalysisResults :=
    { image_path := image_path
      color_analysis := color_palette
      texture_analysis := texture_analysis
      shape_analysis := shape_analysis
      model_parameters := model_params
      output_directory := image_output_dir
      visualization_files := viz }
  let _ ← env.save_results
  pure analysis_results

/-- Embeds `ImageAnalyzer.analyze_image` (lines 38–120): the `try` body wrapped in
the catch-all `except` that converts any exception into the
`{error, image_path, status: "failed"}` dict. -/
def analyze_image (env : AnalyzerEnv) (output_dir image_path : String)
    (generate_visualizations : Bool) : AnalyzeOutcome :=
  match analyze_image_try env output_dir image_path generate_visualizations with
  | .ok r => .ok r
  | .error e => .failed ⟨e, image_path, "failed"⟩

/-! ### Helper lemmas -/

theorem le_listMaxNat (l : List ℕ) (x : ℕ) (hx : x ∈ l) : x ≤ listMaxNat l := by
  unfold listMaxNat
  induction l with
  | nil => cases hx
  | cons a t ih =>
    rcases List.mem_cons.1 hx with rfl | hmem
    · exact le_max_left _ _
    · exact le_trans (ih hmem) (le_max_right _ _)

theorem list_range_map_sum (f : ℕ → ℕ) (n : ℕ) :
    ((List.range n).map f).sum = ∑ i ∈ Finset.range n, f i := by
  induction n with
  | zero => simp
  | succ m ih => rw [List.range_succ, Finset.sum_range_succ]; simp [ih]

/-- Every sampled pixel is counted in exactly one bucket of `np.bincount`,
so the counts add up to the number of labels. -/
theorem sum_bincount (l : List ℕ) : (bincount l).sum = l.length := by
  unfold bincount
  rw [list_range_map_sum]
  have hsub : l.toFinset ⊆ Finset.range (listMaxNat l + 1) := by
    intro x hx
    simp only [List.mem_toFinset] at hx
    exact Finset.mem_range.2 (Nat.lt_succ_of_le (le_listMaxNat l x hx))
  rw [← Finset.sum_subset hsub]
  · exact List.sum_toFinset_count_eq_length l
  · intro x _ hx
    simp only [List.mem_toFinset] at hx
    exact List.count_eq_zero.2 hx

theorem insertDescBy_perm (key : ℕ → ℚ) (i : ℕ) (l : List ℕ) :
    (insertDescBy key i l).Perm (i :: l) := by
  induction l with
  | nil => exact List.Perm.refl _
  | cons j js ih =>
    unfold insertDescBy
    split
    · exact (ih.cons j).trans (List.Perm.swap i j js)
    · exact List.Perm.refl _

theorem insertDescBy_sorted (key : ℕ → ℚ) (i : ℕ) (l : List ℕ)
    (h : l.Pairwise (fun a b => key b ≤ key a)) :
    (insertDescBy key i l).Pairwise (fun a b => key b ≤ key a) := by
  induction l with
  | nil => simp [insertDescBy]
  | cons j js ih =>
    rcases List.pairwise_cons.1 h with ⟨hj, hjs⟩
    unfold insertDescBy
    split
    case isTrue hle =>
      refine List.pairwise_cons.2 ⟨?_, ih hjs⟩
      intro b hb
      rcases List.mem_cons.1 ((insertDescBy_perm key i js).mem_iff.1 hb) with rfl | hbjs
      · exact hle
      · exact hj b hbjs
    case isFalse hgt =>
      refine List.pairwise_cons.2 ⟨?_, h⟩
      intro b hb
      rcases List.mem_cons.1 hb with rfl | hbjs
      · exact le_of_lt (not_le.1 hgt)
      · exact le_trans (hj b hbjs) (le_of_lt (not_le.1 hgt))

theorem argsortDesc_perm (ps : List ℚ) :
    (argsortDesc ps).Perm (List.range ps.length) := by
  unfold argsortDesc
  generalize List.range ps.length = l
  induction l with
  | nil => exact List.Perm.refl _
  | cons i is ih =>
    simp only [List.foldr_cons]
    exact (insertDescBy_perm _ i _).trans (ih.cons i)

theorem argsortDesc_sorted (ps : List ℚ) :
    (argsortDesc ps).Pairwise (fun a b => ps.getD b 0 ≤ ps.getD a 0) := by
  unfold argsortDesc
  generalize List.range ps.length = l
  induction l with
  | nil => simp
  | cons i is ih =>
    simp only [List.foldr_cons]
    exact insertDescBy_sorted _ i _ ih

theorem dominant_shapes_snoc_length (l : List String) (s : String) :
    0 < (if l.isEmpty then l ++ [s] else l).length := by
  cases l <;> simp

/-! ### Specification-side rule sets

Second definitions written from the specification text (§4.2, §4.3, §4.4),
to be compared with the source-side definitions above. -/

/-- Shape-classification rules as worded in the specification: compactness
over 0.8 overrides everything; otherwise vertex counts 3/4/5/6 name the
polygon, 7 through 14 give Polygon, anything else gives Organic, and a
quadrilateral is a Square exactly when the aspect ratio lies strictly
between 0.9 and 1.1. -/
def specShapeType (vertices : ℕ) (compactness aspct : ℚ) : String :=
  if compactness > 0.8 then "Circle"
  else if vertices = 3 then "Triangle"
  else if vertices = 4 then if 0.9 < aspct ∧ aspct < 1.1 then "Square" else "Rectangle"
  else if vertices = 5 then "Pentagon"
  else if vertices = 6 then "Hexagon"
  else if 7 ≤ vertices ∧ vertices ≤ 14 then "Polygon"
  else "Organic"

/-- Texture-type rules as worded in the specification, with the guards
flattened into first-match-wins conjunctions. -/
def specTextureType (roughness uniformity contrast directionality : ℚ) : String :=
  if roughness < 10 ∧ uniformity > 0.5 then "Smooth"
  else if roughness < 10 then "Matte"
  else if roughness < 30 ∧ directionality > 0.5 then "Striated"
  else if roughness < 30 then "Textured"
  else if contrast > 0.3 then "Rough"
  else "Coarse"

/-- Form-type precedence as worded in the specification, phrased with list
membership. -/
def specFormType (ds : List String) : String :=
  if "Circle" ∈ ds ∨ "Circular" ∈ ds then "cylindrical"
  else if "Rectangle" ∈ ds ∨ "Square" ∈ ds then "box"
  else if "Triangle" ∈ ds then "pyramid"
  else if "Polygon" ∈ ds then "polyhedron"
  else if "Organic" ∈ ds then "organic"
  else "generic"

/-! ### Claim theorems -/

/-- C5: for every retained contour polygon, `_identify_shape` follows
exactly the specified precedence: compactness over 0.8 gives Circle
regardless of vertex count; otherwise 3 vertices give Triangle, 4 give
Square when the bounding-box aspect ratio lies strictly in (0.9, 1.1) and
Rectangle otherwise, 5 give Pentagon, 6 give Hexagon, 7 through 14 give
Polygon, and any other vertex count gives Organic. -/
theorem C5_shape_classification (contour : List (ℚ × ℚ)) (compactness : ℚ) :
    identify_shape contour compactness =
      specShapeType contour.length compactness (contourAspectRatio contour) := by
  unfold identify_shape specShapeType
  split_ifs <;> first | rfl | omega

/-- C6: for every tuple of texture metrics, `_determine_texture_type`
returns exactly the type the specification's threshold table prescribes:
roughness under 10 gives Smooth when uniformity exceeds 0.5 and otherwise
Matte; otherwise roughness under 30 gives Striated when directionality
exceeds 0.5 and otherwise Textured; otherwise Rough when contrast exceeds
0.3 and otherwise Coarse. -/
theorem C6_texture_classification (roughness uniformity contrast directionality : ℚ) :
    determine_texture_type roughness uniformity contrast directionality =
      specTextureType roughness uniformity contrast directionality := by
  unfold determine_texture_type specTextureType
  split_ifs <;> first | rfl | tauto

/-- C7: `_determine_model_type` derives the form type purely from the
dominant-shapes list by the fixed precedence Circle/Circular, then
Rectangle/Square, then Triangle, then Polygon, then Organic, with fallback
generic; in particular a lone Circle gives cylindrical and a lone Rectangle
gives box. -/
theorem C7_form_type :
    (∀ ds : List String, determine_model_type ds = specFormType ds) ∧
    determine_model_type ["Circle"] = "cylindrical" ∧
    determine_model_type ["Rectangle"] = "box" := by
  refine ⟨fun ds => ?_, by decide, by decide⟩
  unfold determine_model_type specFormType
  simp

/-- C3 counterexample: when `generate_model_parameters` hits an internal
error it returns a record whose form type is the string basic_cube, not
generic as the claim states. -/
theorem C3_counterexample :
    (generate_model_parameters (Except.error "malformed analysis dict")).type = "basic_cube" ∧
    (generate_model_parameters (Except.error "malformed analysis dict")).type ≠ "generic" := by
  constructor
  · rfl
  · decide

/-- C3 amended: on every internal error, `generate_model_parameters`
returns (rather than raises) the conservative default parameter set with
form type basic_cube, unit-cube dimensions, a single gray color, the
materials list holding only Plastic, and an empty details list. -/
theorem C3_error_default (e : String) :
    generate_model_parameters (Except.error e) =
      { type := "basic_cube"
        dimensions := ⟨1, 1, 1⟩
        colors := [⟨"#CCCCCC", "Gray"⟩]
        materials := ["Plastic"]
        details := [] } := rfl

/-- C2: for every image path and every internal exception raised during
analysis (missing file, unreadable image, or a stage failure that escapes
its stage), `analyze_image` does not propagate the exception but returns
the record carrying the error message, the image path, and status equal to
the string failed. -/
theorem C2_failure_record (env : AnalyzerEnv) (output_dir image_path : String)
    (generate_visualizations : Bool) (e : String)
    (h : analyze_image_try env output_dir image_path generate_visualizations =
      Except.error e) :
    analyze_image env output_dir image_path generate_visualizations =
      AnalyzeOutcome.failed ⟨e, image_path, "failed"⟩ := by
  unfold analyze_image
  rw [h]

/-- Placeholder texture record used to build concrete analyzer
environments in witnesses. -/
def unknownTexture : TextureAnalysis :=
  ⟨"unknown", 0, 0, 0, 0, "unknown"⟩

/-- A concrete environment whose image file is missing: the first check of
the `try` body raises `FileNotFoundError`. -/
def missingFileEnv : AnalyzerEnv :=
  { file_exists := false
    makedirs := .ok ()
    color_stage := .ok ⟨[], [], []⟩
    texture_stage := .ok unknownTexture
    texture_viz := .ok ()
    shape_stage := .ok (detect_shapes (.error "unreadable"))
    shape_viz := .ok ()
    model_stage := .ok basicCubeDefault
    model_file_stage := .ok none
    viz_files := .ok []
    save_results := .ok none }

/-- Witness for C2 at a concrete input: analyzing a missing file yields the
failure record with the `FileNotFoundError` message. -/
theorem C2_witness :
    analyze_image_try missingFileEnv "./output" "img.png" true =
      Except.error "Image file not found: img.png" ∧
    analyze_image missingFileEnv "./output" "img.png" true =
      AnalyzeOutcome.failed ⟨"Image file not found: img.png", "img.png", "failed"⟩ :=
  ⟨rfl, C2_failure_record missingFileEnv "./output" "img.png" true _ rfl⟩

/-- C8: dimension generation selects the largest-area shape record; with
aspect ratio r over 1 the width is min 2 r and the height 1, otherwise the
width is 1 and the height min 2 (1/r); the depth equals the width for a
Circle or Square record and half the width otherwise; with no shape records
the dimensions stay at the unit cube. -/
theorem C8_dimensions :
    (∀ sa : ShapeAnalysis, sa.shape_details = [] → generate_dimensions sa = ⟨1, 1, 1⟩) ∧
    (∀ (sa : ShapeAnalysis) (s : ShapeRecord) (rest : List ShapeRecord),
      sa.shape_details = s :: rest →
      0 < (pythonMaxByArea s rest).aspect_ratio →
      generate_dimensions sa =
        { width := if 1 < (pythonMaxByArea s rest).aspect_ratio then
            min 2 (pythonMaxByArea s rest).aspect_ratio else 1
          height := if 1 < (pythonMaxByArea s rest).aspect_ratio then 1 else
            min 2 (1 / (pythonMaxByArea s rest).aspect_ratio)
          depth :=
            (if (pythonMaxByArea s rest).type = "Circle" ∨
                (pythonMaxByArea s rest).type = "Square" then
              (if 1 < (pythonMaxByArea s rest).aspect_ratio then
                min 2 (pythonMaxByArea s rest).aspect_ratio else 1)
            else
              (if 1 < (pythonMaxByArea s rest).aspect_ratio then
                min 2 (pythonMaxByArea s rest).aspect_ratio else 1) * 0.5) }) := by
  constructor
  · intro sa h
    unfold generate_dimensions
    rw [h]
  · intro sa s rest h hr
    unfold generate_dimensions
    rw [h]
    have : (if (pythonMaxByArea s rest).aspect_ratio > 0 then
        1 / (pythonMaxByArea s rest).aspect_ratio else 1) =
        1 / (pythonMaxByArea s rest).aspect_ratio := if_pos hr
    simp only [this]

/-- A concrete single-record shape analysis for the C8 witness: one
Rectangle contour of aspect ratio 3/2. -/
def rectangleAnalysis : ShapeAnalysis :=
  { dominant_shapes := ["Rectangle"]
    shape_count := 1
    has_straight_lines := true
    has_curves := false
    shape_complexity := "Low"
    shape_distribution := "Sparse"
    shape_details := [⟨"Rectangle", 4, 5000, 300, 0.7, 3/2, 100, 100⟩] }

/-- Witness for C8 at a concrete input: the lone Rectangle record with
aspect ratio 3/2 produces width 3/2, height 1 and depth 3/4. -/
theorem C8_witness :
    rectangleAnalysis.shape_details = [⟨"Rectangle", 4, 5000, 300, 0.7, 3/2, 100, 100⟩] ∧
    0 < (pythonMaxByArea ⟨"Rectangle", 4, 5000, 300, 0.7, 3/2, 100, 100⟩ []).aspect_ratio ∧
    generate_dimensions rectangleAnalysis = ⟨3/2, 1, 3/4⟩ := by
  refine ⟨rfl, by norm_num [pythonMaxByArea], ?_⟩
  rw [C8_dimensions.2 rectangleAnalysis ⟨"Rectangle", 4, 5000, 300, 0.7, 3/2, 100, 100⟩ []
    rfl (by norm_num [pythonMaxByArea])]
  norm_num [pythonMaxByArea, min_def]
  decide

/-- C9: whenever clustering succeeds (every sampled pixel carries exactly
one label, so the label list is nonempty), each percentage computed on
lines 67–69 is nonnegative and the percentages sum to exactly 100. -/
theorem C9_percentages (labels : List ℕ) (h : labels ≠ []) :
    (∀ p ∈ rawPercentages labels, 0 ≤ p) ∧ (rawPercentages labels).sum = 100 := by
  constructor
  · intro p hp
    obtain ⟨c, _, rfl⟩ := List.mem_map.1 hp
    positivity
  · have hn : (labels.length : ℚ) ≠ 0 := by
      exact_mod_cast List.length_pos.2 h |>.ne'
    unfold rawPercentages
    have hrw : (fun c : ℕ => (c : ℚ) / (labels.length : ℚ) * 100) =
        fun c : ℕ => (c : ℚ) * (100 / (labels.length : ℚ)) := by
      funext c
      field_simp
    rw [hrw, List.sum_map_mul_right, ← Nat.cast_list_sum, sum_bincount]
    field_simp

/-- Witness for C9 at a concrete input: three pixels split 1/2 over two
clusters give the nonnegative percentages 100/3 and 200/3, which sum to
100. -/
theorem C9_witness :
    ([0, 1, 1] : List ℕ) ≠ [] ∧
    ((∀ p ∈ rawPercentages [0, 1, 1], 0 ≤ p) ∧ (rawPercentages [0, 1, 1]).sum = 100) :=
  ⟨by decide, C9_percentages [0, 1, 1] (by decide)⟩

/-- C10: `detect_shapes` always reports at least one dominant shape: the
aggregation fallback chain of `_determine_dominant_shapes` ends by
inserting Complex or Organic into an otherwise empty list, and the failure
path returns the sentinel list holding Unknown. -/
theorem C10_dominant_shapes_nonempty :
    (∀ stage : Except String (ShapeInfo × LineInfo × CircleInfo),
      0 < (detect_shapes stage).dominant_shapes.length) ∧
    (∀ e : String, (detect_shapes (Except.error e)).dominant_shapes = ["Unknown"]) := by
  constructor
  · intro stage
    cases stage with
    | error e => simp [detect_shapes]
    | ok v =>
      obtain ⟨si, li, ci⟩ := v
      simp only [detect_shapes, determine_dominant_shapes]
      exact dominant_shapes_snoc_length _ _
  · intro e
    rfl

/-- C1 amended: the hex color list returned by `get_color_palette` is the
raw hex list permuted into weakly descending percentage order, while the
rgb values and the percentages are returned in the original cluster order,
unchanged. -/
theorem C1_palette_ordering (o : ClusterOutcome) :
    (get_color_palette o).rgb_values = kmeansColors o ∧
    (get_color_palette o).percentages = rawPercentages o.labels ∧
    ∃ idxs : List ℕ,
      idxs.Perm (List.range (rawPercentages o.labels).length) ∧
      (get_color_palette o).hex_colors = idxs.map (fun i => (rawHexColors o).getD i "") ∧
      List.Sorted (fun a b : ℚ => b ≤ a)
        (idxs.map (fun i => (rawPercentages o.labels).getD i 0)) := by
  refine ⟨rfl, rfl, argsortDesc (rawPercentages o.labels), argsortDesc_perm _, rfl, ?_⟩
  exact List.Pairwise.map _ (fun a b hab => hab) (argsortDesc_sorted (rawPercentages o.labels))

/-- Clustering outcome used in the C1 counterexample: cluster 0 is black
with one of three pixels, cluster 1 is white with two of three pixels. -/
def smallOutcome : ClusterOutcome := ⟨[(0, 0, 0), (255, 255, 255)], [0, 1, 1]⟩

/-- C1 counterexample: on a reachable clustering outcome (valid for a
3-pixel image, as certified by `ValidClustering`), the returned hex list is
sorted by descending share — white first — but the rgb and percentage lists
stay in cluster order, so index 0 of the percentage list carries the black
cluster's 100/3 share, smaller than the entry at index 1.  The three lists
are therefore neither aligned nor all sorted by descending percentage. -/
theorem C1_counterexample :
    ValidClustering [(0, 0, 0), (255, 255, 255), (255, 255, 255)] 2 smallOutcome ∧
    (get_color_palette smallOutcome).hex_colors = ["#ffffff", "#000000"] ∧
    (get_color_palette smallOutcome).rgb_values = [(0, 0, 0), (255, 255, 255)] ∧
    (get_color_palette smallOutcome).percentages.getD 0 0 <
      (get_color_palette smallOutcome).percentages.getD 1 0 := by
  have hperc : rawPercentages [0, 1, 1] = [100/3, 200/3] := by
    have hb : bincount [0, 1, 1] = [1, 2] := by decide
    rw [rawPercentages, hb]
    norm_num
  have hcolors : kmeansColors smallOutcome = [(0, 0, 0), (255, 255, 255)] := by
    norm_num [kmeansColors, smallOutcome, npTrunc]
  have hhex : rawHexColors smallOutcome = ["#000000", "#ffffff"] := by
    rw [rawHexColors, hcolors]
    decide
  have hsort : argsortDesc [100/3, 200/3] = [1, 0] := by
    norm_num [argsortDesc, insertDescBy, List.range_succ]
  have hlab : smallOutcome.labels = [0, 1, 1] := rfl
  refine ⟨⟨by decide, by decide, by decide, ?_, ?_⟩, ?_, ?_, ?_⟩
  · intro c hc
    interval_cases c
    · refine ⟨by decide, ?_⟩
      have h0 : assignedPixels [(0, 0, 0), (255, 255, 255), (255, 255, 255)] [0, 1, 1] 0 =
          [(0, 0, 0)] := by decide
      rw [show smallOutcome.labels = [0, 1, 1] from rfl, h0]
      norm_num [meanPixel, smallOutcome]
    · refine ⟨by decide, ?_⟩
      have h1 : assignedPixels [(0, 0, 0), (255, 255, 255), (255, 255, 255)] [0, 1, 1] 1 =
          [(255, 255, 255), (255, 255, 255)] := by decide
      rw [show smallOutcome.labels = [0, 1, 1] from rfl, h1]
      norm_num [meanPixel, smallOutcome]
  · intro i hi c hc
    simp only [List.length_cons, List.length_nil] at hi
    interval_cases i <;> interval_cases c <;>
      norm_num [sqDist, smallOutcome, List.getD_cons_zero, List.getD_cons_succ]
  · simp only [get_color_palette, extract_colors]
    rw [hlab, hperc, hsort, hhex]
    decide
  · simp only [get_color_palette, extract_colors]
    exact hcolors
  · simp only [get_color_palette, extract_colors]
    rw [hlab, hperc]
    norm_num

/-- The same 3-pixel clustering as `smallOutcome` with the cluster indices
in the opposite order — an equally valid `KMeans` outcome, reachable under
a different random initialization. -/
def swappedOutcome : ClusterOutcome := ⟨[(255, 255, 255), (0, 0, 0)], [1, 0, 0]⟩

/-- C4: the pipeline's output is not a function of the image and
configuration alone.  The same pixel list admits two valid `KMeans`
outcomes, differing only in the (seed-dependent) numbering of the clusters,
and `get_color_palette` — hence the assembled analysis record — returns
different values on them.  The source passes no random seed to `KMeans`, so
two runs on the identical image and configuration may legitimately produce
either outcome. -/
theorem C4_output_depends_on_clustering_seed :
    ValidClustering [(0, 0, 0), (255, 255, 255), (255, 255, 255)] 2 smallOutcome ∧
    ValidClustering [(0, 0, 0), (255, 255, 255), (255, 255, 255)] 2 swappedOutcome ∧
    get_color_palette smallOutcome ≠ get_color_palette swappedOutcome := by
  have hc1 : kmeansColors smallOutcome = [(0, 0, 0), (255, 255, 255)] := by
    norm_num [kmeansColors, smallOutcome, npTrunc]
  have hc2 : kmeansColors swappedOutcome = [(255, 255, 255), (0, 0, 0)] := by
    norm_num [kmeansColors, swappedOutcome, npTrunc]
  refine ⟨⟨by decide, by decide, by decide, ?_, ?_⟩,
    ⟨by decide, by decide, by decide, ?_, ?_⟩, ?_⟩
  · intro c hc
    interval_cases c
    · refine ⟨by decide, ?_⟩
      have h0 : assignedPixels [(0, 0, 0), (255, 255, 255), (255, 255, 255)] [0, 1, 1] 0 =
          [(0, 0, 0)] := by decide
      rw [show smallOutcome.labels = [0, 1, 1] from rfl, h0]
      norm_num [meanPixel, smallOutcome]
    · refine ⟨by decide, ?_⟩
      have h1 : assignedPixels [(0, 0, 0), (255, 255, 255), (255, 255, 255)] [0, 1, 1] 1 =
          [(255, 255, 255), (255, 255, 255)] := by decide
      rw [show smallOutcome.labels = [0, 1, 1] from rfl, h1]
      norm_num [meanPixel, smallOutcome]
  · intro i hi c hc
    simp only [List.length_cons, List.length_nil] at hi
    interval_cases i <;> interval_cases c <;>
      norm_num [sqDist, smallOutcome, List.getD_cons_zero, List.getD_cons_succ]
  · intro c hc
    interval_cases c
    · refine ⟨by decide, ?_⟩
      have h0 : assignedPixels [(0, 0, 0), (255, 255, 255), (255, 255, 255)] [1, 0, 0] 0 =
          [(255, 255, 255), (255, 255, 255)] := by decide
      rw [show swappedOutcome.labels = [1, 0, 0] from rfl, h0]
      norm_num [meanPixel, swappedOutcome]
    · refine ⟨by decide, ?_⟩
      have h1 : assignedPixels [(0, 0, 0), (255, 255, 255), (255, 255, 255)] [1, 0, 0] 1 =
          [(0, 0, 0)] := by decide
      rw [show swappedOutcome.labels = [1, 0, 0] from rfl, h1]
      norm_num [meanPixel, swappedOutcome]
  · intro i hi c hc
    simp only [List.length_cons, List.length_nil] at hi
    interval_cases i <;> interval_cases c <;>
      norm_num [sqDist, swappedOutcome, List.getD_cons_zero, List.getD_cons_succ]
  · intro h
    have hr := congrArg ColorPalette.rgb_values h
    simp only [get_color_palette, extract_colors] at hr
    rw [hc1, hc2] at hr
    exact absurd hr (by decide)
